import Mathlib

/-!
Verification of the MSMatch dataset-splitting layer (`src/datasets/ssl_dataset.py`).

The repository ships only `ssl_dataset.py`; the stratified splitter
`split_ssl_data` lives in the absent `data_utils.py`, so it is modelled here
from the specification's contract (Section 4.1 of the spec), while the
`SSL_Dataset` class (normalization tables, loader dispatch, `get_ssl_dset`)
is embedded directly from the source.
-/

namespace MSMatch

/-! ## The stratified splitter, modelled from the spec -/

/-- Modelled from the spec: the splitter in the missing `data_utils.py` draws
"uniformly at random (without replacement) ... seeded deterministically from the
instance's configured seed".  We model the seeded pseudo-random stream by a
linear congruential generator step. -/
def lcg (s : Nat) : Nat := (s * 1103515245 + 12345) % 2 ^ 31

/-- Modelled from the spec: seeded selection without replacement of `k`
elements from the pool `l`, advancing the pseudo-random stream after each
draw.  Deterministic in the seed `s`. -/
def selectK : Nat → List Nat → Nat → List Nat
  | _, _, 0 => []
  | s, l, k + 1 =>
    if l.length = 0 then []
    else
      l.getD (s % l.length) 0 :: selectK (lcg s) (l.eraseIdx (s % l.length)) k

/-- The indices of the collection whose target is class `c`
(the model of `np.where(target == c)[0]`). -/
def classIndices (targets : List Nat) (c : Nat) : List Nat :=
  (List.range targets.length).filter (fun i => targets[i]? == some c)

/-- Error outcomes of the splitter, per the spec's error conditions. -/
inductive SplitError where
  | insufficientSamples
  | indexLengthMismatch
deriving DecidableEq

/-- Decidable equality of `Except` results, so the embedding can be evaluated
on concrete inputs. -/
instance {ε α : Type} [DecidableEq ε] [DecidableEq α] : DecidableEq (Except ε α) := fun x y =>
  match x, y with
  | Except.ok a, Except.ok b =>
    if h : a = b then isTrue (by rw [h]) else isFalse (fun hc => h (Except.ok.inj hc))
  | Except.error a, Except.error b =>
    if h : a = b then isTrue (by rw [h]) else isFalse (fun hc => h (Except.error.inj hc))
  | Except.ok _, Except.error _ => isFalse (fun hc => Except.noConfusion hc)
  | Except.error _, Except.ok _ => isFalse (fun hc => Except.noConfusion hc)

/-- Modelled from the spec: "for each class c in [0, num_classes), select
`num_labels // num_classes` indices uniformly at random (without replacement)
from the subset of indices where `targets[i] == c`"; a class with fewer
available samples than the quota signals an insufficient-samples error. -/
def sampleClasses (targets : List Nat) (quota seed : Nat) : List Nat → Except SplitError (List Nat)
  | [] => Except.ok []
  | c :: cs =>
    let idx := classIndices targets c
    if idx.length < quota then Except.error SplitError.insufficientSamples
    else
      match sampleClasses targets quota seed cs with
      | Except.error e => Except.error e
      | Except.ok rest => Except.ok (selectK (seed + c) idx quota ++ rest)

/-- Modelled from the spec: the labeled-index selection of the missing
`sample_labeled_data` — per-class quota `num_labels // num_classes`,
concatenated across classes `0 .. num_classes - 1`. -/
def sample_labeled_data (targets : List Nat) (num_labels num_classes seed : Nat) :
    Except SplitError (List Nat) :=
  sampleClasses targets (num_labels / num_classes) seed (List.range num_classes)

/-- The four derived sequences returned by the splitter. -/
structure SplitResult (α : Type) where
  lb_data : List α
  lb_targets : List Nat
  ulb_data : List α
  ulb_targets : List Nat
deriving DecidableEq

/-- The complement of the labeled index set inside `0 .. n - 1`. -/
def complementIndices (n : Nat) (lb_idx : List Nat) : List Nat :=
  (List.range n).filter (fun i => !(lb_idx.contains i))

/-- Assemble the split result from the labeled index set: labeled outputs are
the indexed selections; the unlabeled outputs are the whole collection when
`include_lb_to_ulb` is true and the complement selection otherwise.
`data` and `targets` are parallel sequences of length `targets.length`. -/
def mkSplitResult (data : List α) (targets : List Nat) (lb_idx : List Nat)
    (include_lb_to_ulb : Bool) : SplitResult α :=
  { lb_data := lb_idx.filterMap (fun i => data[i]?)
    lb_targets := lb_idx.filterMap (fun i => targets[i]?)
    ulb_data :=
      if include_lb_to_ulb then data
      else (complementIndices targets.length lb_idx).filterMap (fun i => data[i]?)
    ulb_targets :=
      if include_lb_to_ulb then targets
      else (complementIndices targets.length lb_idx).filterMap (fun i => targets[i]?) }

/-- Modelled from the spec: the contract of the missing `split_ssl_data`.
An explicit `index` bypasses sampling (after the length validation required by
the spec's error conditions); otherwise the balanced seeded selection runs. -/
def split_ssl_data (data : List α) (targets : List Nat) (num_labels num_classes : Nat)
    (index : Option (List Nat)) (include_lb_to_ulb : Bool) (seed : Nat) :
    Except SplitError (SplitResult α) :=
  match index with
  | some idx =>
    if idx.length = num_labels then
      Except.ok (mkSplitResult data targets idx include_lb_to_ulb)
    else Except.error SplitError.indexLengthMismatch
  | none =>
    match sample_labeled_data targets num_labels num_classes seed with
    | Except.error e => Except.error e
    | Except.ok lb_idx => Except.ok (mkSplitResult data targets lb_idx include_lb_to_ulb)

/-- The ambient state a splitter call runs in: the stored collection and the
global pseudo-random stream position. -/
structure SplitState (α : Type) where
  data : List α
  targets : List Nat
  rng : Nat

/-- Modelled from the spec: a splitter call against the ambient state.  The
call reads the collection, re-seeds its stream from the configured `seed`
(so the ambient stream position does not influence it), and returns the four
derived sequences together with the post-state. -/
def split_ssl_data_st (st : SplitState α) (num_labels num_classes : Nat)
    (index : Option (List Nat)) (include_lb_to_ulb : Bool) (seed : Nat) :
    Except SplitError (SplitResult α) × SplitState α :=
  (split_ssl_data st.data st.targets num_labels num_classes index include_lb_to_ulb seed,
   { st with rng := lcg seed })

/-! ## `ssl_dataset.py`, embedded from the source -/

/-- The per-dataset normalization means of `ssl_dataset.py` lines 17-23
(`mean[name] = [x / 255 for x in ...]`), a dictionary keyed by dataset name:
a key outside the table raises a `KeyError` (modelled as `none`). -/
def mean (name : String) : Option (List ℚ) :=
  if name = "cifar10" then some [1253 / 10 / 255, 1230 / 10 / 255, 1139 / 10 / 255]
  else if name = "cifar100" then some [1293 / 10 / 255, 1241 / 10 / 255, 1124 / 10 / 255]
  else if name = "ucm" then
    some [12358113728 / 10 ^ 8 / 255, 12508415423 / 10 ^ 8 / 255, 11507542080 / 10 ^ 8 / 255]
  else if name = "aid" then
    some [10040901229 / 10 ^ 8 / 255, 10334463381 / 10 ^ 8 / 255, 9292875687 / 10 ^ 8 / 255]
  else if name = "eurosat_rgb" then
    some [8778644464 / 10 ^ 8 / 255, 9696653968 / 10 ^ 8 / 255, 10399007906 / 10 ^ 8 / 255]
  else if name = "eurosat_ms" then some [0, 0, 0]
  else none

/-- The per-dataset normalization standard deviations of `ssl_dataset.py`
lines 25-30. -/
def std (name : String) : Option (List ℚ) :=
  if name = "cifar10" then some [630 / 10 / 255, 621 / 10 / 255, 667 / 10 / 255]
  else if name = "cifar100" then some [682 / 10 / 255, 654 / 10 / 255, 704 / 10 / 255]
  else if name = "ucm" then
    some [5540512165 / 10 ^ 8 / 255, 5134108472 / 10 ^ 8 / 255, 4980905244 / 10 ^ 8 / 255]
  else if name = "aid" then
    some [5371052739 / 10 ^ 8 / 255, 4781369006 / 10 ^ 8 / 255, 4719406823 / 10 ^ 8 / 255]
  else if name = "eurosat_rgb" then
    some [5192045453 / 10 ^ 8 / 255, 3482338243 / 10 ^ 8 / 255, 2926981551 / 10 ^ 8 / 255]
  else if name = "eurosat_ms" then some [1, 1, 1]
  else none

/-- The dataset names for which both normalization tables have an entry and
`get_data` has a dispatch branch. -/
def supported : List String :=
  ["cifar10", "cifar100", "ucm", "aid", "eurosat_rgb", "eurosat_ms"]

/-- The failure raised by `SSL_Dataset.__init__`: the lookups `mean[name]` and
`std[name]` raise `KeyError` for a name outside the tables. -/
inductive InitError where
  | keyError
deriving DecidableEq

/-- The configuration held by a constructed `SSL_Dataset` instance
(`ssl_dataset.py` lines 66-84): the stored attributes, with the transform
represented by the normalization statistics it closes over. -/
structure SSLDatasetConfig where
  name : String
  seed : Nat
  train : Bool
  data_dir : String
  num_classes : Nat
  transform_mean : List ℚ
  transform_std : List ℚ
deriving DecidableEq

/-- `SSL_Dataset.__init__`: stores the arguments and builds the transform via
`get_transform(mean[name], std[name], train)`; the dictionary lookups fail with
`KeyError` for an unsupported name, so construction itself fails there. -/
def SSL_Dataset.init (name : String) (train : Bool) (num_classes : Nat)
    (data_dir : String) (seed : Nat) : Except InitError SSLDatasetConfig :=
  match mean name, std name with
  | some m, some s => Except.ok ⟨name, seed, train, data_dir, num_classes, m, s⟩
  | _, _ => Except.error InitError.keyError

/-- The loader classes `get_data` can dispatch to (`ssl_dataset.py` lines
86-108): the two torchvision CIFAR classes and the three custom dataset
classes.  Both `"eurosat_rgb"` and `"eurosat_ms"` dispatch to
`EurosatRGBDataset`. -/
inductive Loader where
  | torchvisionCIFAR10
  | torchvisionCIFAR100
  | ucmDataset
  | aidDataset
  | eurosatRGBDataset
deriving DecidableEq

/-- The failure mode of `get_data` for a name no branch matches: the local
`dset` is never bound, so `dset.label_encoding` raises `UnboundLocalError`. -/
inductive GetDataError where
  | unboundLocal
deriving DecidableEq

/-- The dispatch chain of `SSL_Dataset.get_data` on `self.name`, returning the
loader class a dataset would be constructed from. -/
def dispatch_loader (name : String) : Except GetDataError Loader :=
  if name = "cifar10" then Except.ok Loader.torchvisionCIFAR10
  else if name = "cifar100" then Except.ok Loader.torchvisionCIFAR100
  else if name = "ucm" then Except.ok Loader.ucmDataset
  else if name = "aid" then Except.ok Loader.aidDataset
  else if name = "eurosat_rgb" then Except.ok Loader.eurosatRGBDataset
  else if name = "eurosat_ms" then Except.ok Loader.eurosatRGBDataset
  else Except.error GetDataError.unboundLocal

/-- Constructing an `SSL_Dataset` and then requesting data: the composition of
`__init__` and the `get_data` dispatch.  `InitError` and `GetDataError`
distinguish where a failure arises. -/
def construct_and_get_data (name : String) (train : Bool) (num_classes : Nat)
    (data_dir : String) (seed : Nat) :
    Except (InitError ⊕ GetDataError) Loader :=
  match SSL_Dataset.init name train num_classes data_dir seed with
  | Except.error e => Except.error (Sum.inl e)
  | Except.ok cfg =>
    match dispatch_loader cfg.name with
    | Except.error e => Except.error (Sum.inr e)
    | Except.ok l => Except.ok l

/-- `BasicDataset` (defined in the absent `dataset.py`), modelled as the
record of its constructor arguments `(data, targets, num_classes, transform,
use_strong_transform, strong_transform, onehot)` — the claims concern only
what `get_ssl_dset` passes to the constructor.  `τ` is the opaque type of
transforms. -/
structure BasicDataset (α τ : Type) where
  data : List α
  targets : List Nat
  num_classes : Nat
  transform : τ
  use_strong_transform : Bool
  strong_transform : Option τ
  onehot : Bool
deriving DecidableEq

/-- The body of `SSL_Dataset.get_ssl_dset` (`ssl_dataset.py` lines 161-184)
from the point where `self.get_data()` has produced `(data, targets)`:
it runs `split_ssl_data`, builds the labeled `BasicDataset` from
`(lb_data, lb_targets)` with `use_strong_transform = False` and
`strong_transform = None`, and builds the unlabeled `BasicDataset` from the
original `(data, targets)` with the caller's strong-transform arguments.
`seed` is the instance's configured seed driving the splitter's sampling. -/
def get_ssl_dset_core (data : List α) (targets : List Nat) (num_classes : Nat)
    (transform : τ) (num_labels : Nat) (index : Option (List Nat))
    (include_lb_to_ulb : Bool) (use_strong_transform : Bool)
    (strong_transform : Option τ) (onehot : Bool) (seed : Nat) :
    Except SplitError (BasicDataset α τ × BasicDataset α τ) :=
  match split_ssl_data data targets num_labels num_classes index include_lb_to_ulb seed with
  | Except.error e => Except.error e
  | Except.ok r =>
    Except.ok
      (⟨r.lb_data, r.lb_targets, num_classes, transform, false, none, onehot⟩,
       ⟨data, targets, num_classes, transform, use_strong_transform, strong_transform, onehot⟩)

/-! ## Properties of the seeded selection -/

theorem selectK_length (k : Nat) :
    ∀ (s : Nat) (l : List Nat), k ≤ l.length → (selectK s l k).length = k := by
  induction k with
  | zero => intro s l _; rfl
  | succ k ih =>
    intro s l hk
    have hl : l.length ≠ 0 := by omega
    have hi : s % l.length < l.length := Nat.mod_lt _ (Nat.pos_of_ne_zero hl)
    have herase : (l.eraseIdx (s % l.length)).length = l.length - 1 :=
      List.length_eraseIdx_of_lt hi
    simp only [selectK, if_neg hl, List.length_cons]
    rw [ih (lcg s) (l.eraseIdx (s % l.length)) (by omega)]

theorem selectK_subset (k : Nat) :
    ∀ (s : Nat) (l : List Nat), ∀ x ∈ selectK s l k, x ∈ l := by
  induction k with
  | zero => intro s l x hx; simp [selectK] at hx
  | succ k ih =>
    intro s l x hx
    by_cases hl : l.length = 0
    · simp [selectK, hl] at hx
    · simp only [selectK, if_neg hl, List.mem_cons] at hx
      rcases hx with hx | hx
      · have hi : s % l.length < l.length := Nat.mod_lt _ (Nat.pos_of_ne_zero hl)
        rw [hx, List.getD_eq_getElem l 0 hi]
        exact List.getElem_mem hi
      · exact List.eraseIdx_subset _ _ (ih (lcg s) _ x hx)

theorem mem_classIndices {targets : List Nat} {c i : Nat} :
    i ∈ classIndices targets c ↔ targets[i]? = some c := by
  unfold classIndices
  simp only [List.mem_filter, List.mem_range, beq_iff_eq]
  constructor
  · exact fun h => h.2
  · intro h
    exact ⟨(List.getElem?_eq_some.mp h).1, h⟩

theorem selectK_classIndices_target {targets : List Nat} {c k s : Nat} :
    ∀ x ∈ selectK s (classIndices targets c) k, targets[x]? = some c :=
  fun x hx => mem_classIndices.mp (selectK_subset k s _ x hx)

/-! ## Properties of the per-class sampling pass -/

theorem sampleClasses_ok {targets : List Nat} {quota seed : Nat} :
    ∀ cs : List Nat, cs.Nodup →
      (∀ c ∈ cs, quota ≤ (classIndices targets c).length) →
      ∃ l, sampleClasses targets quota seed cs = Except.ok l ∧
        l.length = quota * cs.length ∧
        (∀ c ∈ cs, l.countP (fun i => targets[i]? == some c) = quota) ∧
        (∀ c, c ∉ cs → l.countP (fun i => targets[i]? == some c) = 0) := by
  intro cs
  induction cs with
  | nil =>
    intro _ _
    exact ⟨[], rfl, by simp, by simp, by simp⟩
  | cons c cs ih =>
    intro hnd hfeas
    have hc : quota ≤ (classIndices targets c).length := hfeas c (List.mem_cons_self c cs)
    have hnd' : cs.Nodup := hnd.of_cons
    have hcn : c ∉ cs := (List.nodup_cons.mp hnd).1
    obtain ⟨l, hl, hlen, hin, hout⟩ := ih hnd' (fun c' hc' => hfeas c' (List.mem_cons_of_mem c hc'))
    refine ⟨selectK (seed + c) (classIndices targets c) quota ++ l, ?_, ?_, ?_, ?_⟩
    · simp only [sampleClasses, if_neg (Nat.not_lt.mpr hc), hl]
    · rw [List.length_append, selectK_length quota (seed + c) _ hc, hlen, List.length_cons]
      ring
    · intro c' hc'
      rw [List.countP_append]
      rcases List.mem_cons.mp hc' with rfl | hc'
      · have h1 : (selectK (seed + c') (classIndices targets c') quota).countP
            (fun i => targets[i]? == some c') = quota := by
          rw [List.countP_eq_length.mpr, selectK_length quota (seed + c') _ hc]
          intro x hx
          exact beq_iff_eq.mpr (selectK_classIndices_target x hx)
        rw [h1, hout c' hcn]
        omega
      · have hne : c' ≠ c := fun h => hcn (h ▸ hc')
        have h0 : (selectK (seed + c) (classIndices targets c) quota).countP
            (fun i => targets[i]? == some c') = 0 := by
          rw [List.countP_eq_zero]
          intro x hx hbeq
          rw [selectK_classIndices_target x hx] at hbeq
          have hcc : c = c' := by simpa using hbeq
          exact hne hcc.symm
        rw [h0, hin c' hc']
        omega
    · intro c' hc'
      have hne : c' ≠ c := fun h => hc' (h ▸ List.mem_cons_self c cs)
      have hnotin : c' ∉ cs := fun h => hc' (List.mem_cons_of_mem c h)
      rw [List.countP_append]
      have h0 : (selectK (seed + c) (classIndices targets c) quota).countP
          (fun i => targets[i]? == some c') = 0 := by
        rw [List.countP_eq_zero]
        intro x hx hbeq
        rw [selectK_classIndices_target x hx] at hbeq
        have hcc : c = c' := by simpa using hbeq
        exact hne hcc.symm
      rw [h0, hout c' hnotin]

theorem sampleClasses_error {targets : List Nat} {quota seed : Nat} :
    ∀ cs : List Nat, (∃ c ∈ cs, (classIndices targets c).length < quota) →
      sampleClasses targets quota seed cs = Except.error SplitError.insufficientSamples := by
  intro cs
  induction cs with
  | nil => rintro ⟨c, hc, -⟩; exact absurd hc (List.not_mem_nil c)
  | cons c cs ih =>
    rintro ⟨c', hc', hlt⟩
    rcases List.mem_cons.mp hc' with rfl | hc'
    · simp only [sampleClasses, if_pos hlt]
    · by_cases hc : (classIndices targets c).length < quota
      · simp only [sampleClasses, if_pos hc]
      · simp only [sampleClasses, if_neg hc, ih ⟨c', hc', hlt⟩]

/-! ## Shape of successful splitter and dataset-pair results -/

theorem split_ssl_data_ok_shape {α : Type} {data : List α} {targets : List Nat}
    {num_labels num_classes : Nat} {index : Option (List Nat)} {inc : Bool} {seed : Nat}
    {r : SplitResult α}
    (h : split_ssl_data data targets num_labels num_classes index inc seed = Except.ok r) :
    ∃ l, r = mkSplitResult data targets l inc := by
  cases index with
  | none =>
    simp only [split_ssl_data] at h
    cases hs : sample_labeled_data targets num_labels num_classes seed with
    | error e => rw [hs] at h; exact Except.noConfusion h
    | ok l => rw [hs] at h; exact ⟨l, (Except.ok.inj h).symm⟩
  | some idx =>
    simp only [split_ssl_data] at h
    by_cases hlen : idx.length = num_labels
    · rw [if_pos hlen] at h
      exact ⟨idx, (Except.ok.inj h).symm⟩
    · rw [if_neg hlen] at h
      exact Except.noConfusion h

theorem get_ssl_dset_core_ok_shape {α τ : Type} {data : List α} {targets : List Nat}
    {num_classes : Nat} {transform : τ} {num_labels : Nat} {index : Option (List Nat)}
    {inc ust : Bool} {stf : Option τ} {oh : Bool} {seed : Nat}
    {p : BasicDataset α τ × BasicDataset α τ}
    (h : get_ssl_dset_core data targets num_classes transform num_labels index
        inc ust stf oh seed = Except.ok p) :
    ∃ r, split_ssl_data data targets num_labels num_classes index inc seed = Except.ok r ∧
      p = (⟨r.lb_data, r.lb_targets, num_classes, transform, false, none, oh⟩,
           ⟨data, targets, num_classes, transform, ust, stf, oh⟩) := by
  unfold get_ssl_dset_core at h
  cases hs : split_ssl_data data targets num_labels num_classes index inc seed with
  | error e => rw [hs] at h; exact Except.noConfusion h
  | ok r => rw [hs] at h; exact ⟨r, rfl, (Except.ok.inj h).symm⟩

/-! ## The claims -/

/-- C2: when `num_labels` is divisible by `num_classes` and every class has at
least `num_labels / num_classes` samples, the split's labeled index selection
(no explicit indices) succeeds with exactly `num_labels` indices, of which
exactly `num_labels / num_classes` lie in each class `c` (indices `i` with
`targets[i] == c`). -/
theorem C2_balanced_split (targets : List Nat) (num_labels num_classes seed : Nat)
    (hdvd : num_classes ∣ num_labels)
    (hfeas : ∀ c < num_classes, num_labels / num_classes ≤ (classIndices targets c).length) :
    ∃ l, sample_labeled_data targets num_labels num_classes seed = Except.ok l ∧
      l.length = num_labels ∧
      ∀ c < num_classes, l.countP (fun i => targets[i]? == some c) = num_labels / num_classes := by
  obtain ⟨l, hl, hlen, hin, -⟩ :=
    @sampleClasses_ok targets (num_labels / num_classes) seed (List.range num_classes)
      (List.nodup_range num_classes) (fun c hc => hfeas c (List.mem_range.mp hc))
  refine ⟨l, hl, ?_, fun c hc => hin c (List.mem_range.mpr hc)⟩
  rw [hlen, List.length_range, Nat.div_mul_cancel hdvd]

/-- Witness for C2 at `targets = [0,1,0,1]`, `num_labels = 2`, `num_classes = 2`. -/
theorem C2_balanced_split_witness :
    ((2 : Nat) ∣ 2) ∧ (∀ c < 2, 2 / 2 ≤ (classIndices [0, 1, 0, 1] c).length) ∧
    ∃ l, sample_labeled_data [0, 1, 0, 1] 2 2 0 = Except.ok l ∧
      l.length = 2 ∧
      ∀ c < 2, l.countP (fun i => ([0, 1, 0, 1] : List Nat)[i]? == some c) = 2 / 2 :=
  ⟨by decide, by decide, C2_balanced_split [0, 1, 0, 1] 2 2 0 (by decide) (by decide)⟩

/-- C3: the labeled/unlabeled split is deterministic in the configured seed —
two runs against ambient states holding the same collection but arbitrary
(possibly different) pseudo-random stream positions, with the same data,
targets, label budget, class count and seed and no explicit indices, return
identical results. -/
theorem C3_seed_determinism {α : Type} (data : List α) (targets : List Nat)
    (num_labels num_classes : Nat) (inc : Bool) (seed rng1 rng2 : Nat) :
    (split_ssl_data_st ⟨data, targets, rng1⟩ num_labels num_classes none inc seed).1 =
    (split_ssl_data_st ⟨data, targets, rng2⟩ num_labels num_classes none inc seed).1 := rfl

/-- C4: an explicit index list of length `num_labels` is used directly as the
labeled set — the result is `mkSplitResult` over exactly those indices — and
the outcome is identical for any two seed values (no random sampling). -/
theorem C4_explicit_indices {α : Type} (data : List α) (targets : List Nat)
    (num_labels num_classes : Nat) (idx : List Nat) (inc : Bool) (seed1 seed2 : Nat)
    (h : idx.length = num_labels) :
    split_ssl_data data targets num_labels num_classes (some idx) inc seed1 =
      Except.ok (mkSplitResult data targets idx inc) ∧
    split_ssl_data data targets num_labels num_classes (some idx) inc seed1 =
      split_ssl_data data targets num_labels num_classes (some idx) inc seed2 := by
  exact ⟨by simp [split_ssl_data, h], rfl⟩

/-- Witness for C4 at `idx = [0,1]`, `num_labels = 2`, seeds 3 and 99. -/
theorem C4_explicit_indices_witness :
    ([0, 1] : List Nat).length = 2 ∧
    (split_ssl_data [(7 : Nat), 8] [0, 1] 2 2 (some [0, 1]) false 3 =
       Except.ok (mkSplitResult [(7 : Nat), 8] [0, 1] [0, 1] false) ∧
     split_ssl_data [(7 : Nat), 8] [0, 1] 2 2 (some [0, 1]) false 3 =
       split_ssl_data [(7 : Nat), 8] [0, 1] 2 2 (some [0, 1]) false 99) :=
  ⟨rfl, C4_explicit_indices [(7 : Nat), 8] [0, 1] 2 2 [0, 1] false 3 99 rfl⟩

/-- C5: with `include_lb_to_ulb = true`, any successful split has unlabeled
data and targets exactly equal to the input collection, and any successful
`get_ssl_dset` call returns an unlabeled dataset built from exactly the input
data and targets, unchanged. -/
theorem C5_include_full {α τ : Type} (data : List α) (targets : List Nat)
    (num_labels num_classes : Nat) (index : Option (List Nat)) (transform : τ)
    (ust : Bool) (stf : Option τ) (oh : Bool) (seed : Nat) :
    (∀ r, split_ssl_data data targets num_labels num_classes index true seed = Except.ok r →
        r.ulb_data = data ∧ r.ulb_targets = targets) ∧
    (∀ p, get_ssl_dset_core data targets num_classes transform num_labels index
        true ust stf oh seed = Except.ok p →
        p.2.data = data ∧ p.2.targets = targets) := by
  constructor
  · intro r hr
    obtain ⟨l, rfl⟩ := split_ssl_data_ok_shape hr
    exact ⟨rfl, rfl⟩
  · intro p hp
    obtain ⟨r, -, rfl⟩ := get_ssl_dset_core_ok_shape hp
    exact ⟨rfl, rfl⟩

/-- Witness for C5 at a two-element collection with explicit indices. -/
theorem C5_include_full_witness :
    split_ssl_data [(5 : Nat), 6] [0, 1] 2 2 (some [0, 1]) true 0 =
      Except.ok (⟨[5, 6], [0, 1], [5, 6], [0, 1]⟩ : SplitResult Nat) ∧
    (⟨[5, 6], [0, 1], [5, 6], [0, 1]⟩ : SplitResult Nat).ulb_data = [5, 6] ∧
    (⟨[5, 6], [0, 1], [5, 6], [0, 1]⟩ : SplitResult Nat).ulb_targets = [0, 1] := by
  have h := (C5_include_full [(5 : Nat), 6] [0, 1] 2 2 (some [0, 1]) () true none false 0).1
    (⟨[5, 6], [0, 1], [5, 6], [0, 1]⟩ : SplitResult Nat) rfl
  exact ⟨rfl, h.1, h.2⟩

/-- C7: when some class `c < num_classes` has fewer samples than the per-class
quota `num_labels / num_classes`, the split (without explicit indices) fails
with the insufficient-samples error and returns no partial result. -/
theorem C7_insufficient_error {α : Type} (data : List α) (targets : List Nat)
    (num_labels num_classes : Nat) (inc : Bool) (seed : Nat)
    (h : ∃ c < num_classes, (classIndices targets c).length < num_labels / num_classes) :
    split_ssl_data data targets num_labels num_classes none inc seed =
      Except.error SplitError.insufficientSamples := by
  obtain ⟨c, hc, hlt⟩ := h
  have herr := @sampleClasses_error targets (num_labels / num_classes) seed
    (List.range num_classes) ⟨c, List.mem_range.mpr hc, hlt⟩
  simp [split_ssl_data, sample_labeled_data, herr]

/-- Witness for C7: `targets = [0,0]` has no class-1 samples, quota 1. -/
theorem C7_insufficient_error_witness :
    (∃ c < 2, (classIndices [0, 0] c).length < 2 / 2) ∧
    split_ssl_data [(9 : Nat), 9] [0, 0] 2 2 none true 0 =
      Except.error SplitError.insufficientSamples :=
  ⟨by decide, C7_insufficient_error [(9 : Nat), 9] [0, 0] 2 2 true 0 (by decide)⟩

/-- C8: any pair of datasets returned by `get_ssl_dset` has its labeled member
built with `use_strong_transform = false` and no strong transform, for every
value of the caller's strong-transform arguments, while the unlabeled member
carries exactly the caller's `use_strong_transform` and `strong_transform`. -/
theorem C8_labeled_weak_only {α τ : Type} (data : List α) (targets : List Nat)
    (num_classes : Nat) (transform : τ) (num_labels : Nat) (index : Option (List Nat))
    (inc ust : Bool) (stf : Option τ) (oh : Bool) (seed : Nat) :
    ∀ p, get_ssl_dset_core data targets num_classes transform num_labels index
        inc ust stf oh seed = Except.ok p →
      p.1.use_strong_transform = false ∧ p.1.strong_transform = none ∧
      p.2.use_strong_transform = ust ∧ p.2.strong_transform = stf := by
  intro p hp
  obtain ⟨r, -, rfl⟩ := get_ssl_dset_core_ok_shape hp
  exact ⟨rfl, rfl, rfl, rfl⟩

/-- Witness for C8 with `use_strong_transform = true` and a strong transform. -/
theorem C8_labeled_weak_only_witness :
    get_ssl_dset_core [(5 : Nat), 6] [0, 1] 2 () 2 (some [0, 1]) true true (some ()) false 0 =
      Except.ok ((⟨[5, 6], [0, 1], 2, (), false, none, false⟩ : BasicDataset Nat Unit),
                 (⟨[5, 6], [0, 1], 2, (), true, some (), false⟩ : BasicDataset Nat Unit)) ∧
    (⟨[5, 6], [0, 1], 2, (), false, none, false⟩ : BasicDataset Nat Unit).use_strong_transform
        = false ∧
    (⟨[5, 6], [0, 1], 2, (), false, none, false⟩ : BasicDataset Nat Unit).strong_transform
        = none ∧
    (⟨[5, 6], [0, 1], 2, (), true, some (), false⟩ : BasicDataset Nat Unit).use_strong_transform
        = true ∧
    (⟨[5, 6], [0, 1], 2, (), true, some (), false⟩ : BasicDataset Nat Unit).strong_transform
        = some () := by
  have h := C8_labeled_weak_only [(5 : Nat), 6] [0, 1] 2 () 2 (some [0, 1]) true true
    (some ()) false 0
    ((⟨[5, 6], [0, 1], 2, (), false, none, false⟩ : BasicDataset Nat Unit),
     (⟨[5, 6], [0, 1], 2, (), true, some (), false⟩ : BasicDataset Nat Unit)) rfl
  exact ⟨rfl, h.1, h.2.1, h.2.2.1, h.2.2.2⟩

/-- C9: a splitter call leaves the ambient collection untouched — the post-state
data and targets equal the pre-state data and targets for every call. -/
theorem C9_no_mutation {α : Type} (st : SplitState α) (num_labels num_classes : Nat)
    (index : Option (List Nat)) (inc : Bool) (seed : Nat) :
    (split_ssl_data_st st num_labels num_classes index inc seed).2.data = st.data ∧
    (split_ssl_data_st st num_labels num_classes index inc seed).2.targets = st.targets := by
  constructor <;> simp [split_ssl_data_st]

/-- C1: at the concrete collection `data = [10,20,30,40]`,
`targets = [0,1,0,1]`, `num_labels = 2`, `num_classes = 2`, seed 0 and
`include_lb_to_ulb = false`, the splitter's unlabeled output is the complement
`[20,30]` of the labeled selection (indices 0 and 3), yet the unlabeled
`BasicDataset` returned by `get_ssl_dset` is built from the full collection
`[10,20,30,40]`, which is not that complement: `get_ssl_dset` discards the
splitter's unlabeled output. -/
theorem C1_ulb_dset_ignores_split :
    split_ssl_data ([10, 20, 30, 40] : List Nat) [0, 1, 0, 1] 2 2 none false 0 =
      Except.ok ⟨[10, 40], [0, 1], [20, 30], [1, 0]⟩ ∧
    (get_ssl_dset_core ([10, 20, 30, 40] : List Nat) [0, 1, 0, 1] 2 () 2 none false
        true none false 0).map (fun p => p.2.data) = Except.ok [10, 20, 30, 40] ∧
    ([10, 20, 30, 40] : List Nat) ≠ [20, 30] := by
  refine ⟨by decide, by decide, by decide⟩

/-- C6 counterexample: for the unsupported name `"svhn"`, `SSL_Dataset`
construction itself already fails (the `mean[name]` lookup raises `KeyError`),
so the failure does not occur at `get_data` dispatch time — `get_data` is
never reachable on such an instance. -/
theorem C6_init_fails_before_dispatch :
    SSL_Dataset.init "svhn" true 10 "./data" 42 = Except.error InitError.keyError ∧
    construct_and_get_data "svhn" true 10 "./data" 42 =
      Except.error (Sum.inl InitError.keyError) := by
  refine ⟨by decide, by decide⟩

/-- C6 (amended): for every dataset name outside the supported set,
constructing `SSL_Dataset` fails with a `KeyError` from the normalization-table
lookup in `__init__` — before any data request — so constructing and
requesting data returns a configuration error and never a dataset; the
`get_data` dispatch would also fail (unbound `dset`) if it were reached with
such a name. -/
theorem C6_unsupported_name_fails (name : String) (train : Bool) (num_classes : Nat)
    (data_dir : String) (seed : Nat) (h : name ∉ supported) :
    SSL_Dataset.init name train num_classes data_dir seed = Except.error InitError.keyError ∧
    dispatch_loader name = Except.error GetDataError.unboundLocal ∧
    construct_and_get_data name train num_classes data_dir seed =
      Except.error (Sum.inl InitError.keyError) := by
  simp only [supported, List.mem_cons, List.not_mem_nil, or_false] at h
  push_neg at h
  obtain ⟨h1, h2, h3, h4, h5, h6⟩ := h
  refine ⟨?_, ?_, ?_⟩
  · simp [SSL_Dataset.init, mean, std, h1, h2, h3, h4, h5, h6]
  · simp [dispatch_loader, h1, h2, h3, h4, h5, h6]
  · simp [construct_and_get_data, SSL_Dataset.init, mean, std, h1, h2, h3, h4, h5, h6]

/-- Witness for the amended C6 at the unsupported name `"imagenet"`. -/
theorem C6_unsupported_name_fails_witness :
    "imagenet" ∉ supported ∧
    (SSL_Dataset.init "imagenet" false 10 "d" 1 = Except.error InitError.keyError ∧
     dispatch_loader "imagenet" = Except.error GetDataError.unboundLocal ∧
     construct_and_get_data "imagenet" false 10 "d" 1 =
       Except.error (Sum.inl InitError.keyError)) :=
  ⟨by decide, C6_unsupported_name_fails "imagenet" false 10 "d" 1 (by decide)⟩

set_option maxRecDepth 8000 in
/-- C10: `"eurosat_ms"` dispatches to the same loader class as
`"eurosat_rgb"` (`EurosatRGBDataset`), and its configured normalization is the
identity: per-channel mean 0 and standard deviation 1. -/
theorem C10_eurosat_ms_identity :
    dispatch_loader "eurosat_ms" = dispatch_loader "eurosat_rgb" ∧
    dispatch_loader "eurosat_ms" = Except.ok Loader.eurosatRGBDataset ∧
    mean "eurosat_ms" = some [0, 0, 0] ∧
    std "eurosat_ms" = some [1, 1, 1] := by
  refine ⟨?_, ?_, ?_, ?_⟩ <;> simp [mean, std, dispatch_loader]

end MSMatch
